import Mathlib

/-!
Shallow embedding of the cChatearn chat edge function (turn handling,
content screen, reward/streak accrual) for checking its specification.

Calendar dates (ISO `YYYY-MM-DD` strings in the source, produced from UTC
epoch milliseconds) are modelled as epoch-day integers: two ISO date strings
are equal iff their day numbers are; `yesterday`, computed in the source as
the date of `Date.now() - 24*60*60*1000`, is `today - 1` because UTC days
are exactly 86 400 000 ms of Unix time. A nullable SQL `DATE` column is an
`Option Int`.
-/

namespace Chatearn

/-- Row of the `profiles` table, restricted to the columns the reward task
reads and writes (`total_points`, `current_streak`, `last_activity_date`). -/
structure Profile where
  total_points : Int
  current_streak : Int
  last_activity_date : Option Int
deriving DecidableEq

/-- Row inserted into the `rewards` table by the reward task. -/
structure RewardEntry where
  type : String
  points : Int
  description : String
deriving DecidableEq

/-- Row of the `messages` table as selected for context (`role, content`). -/
structure ChatMsg where
  role : String
  content : String
deriving DecidableEq

/-- One role-tagged turn of the prompt sent to the completion service
(an element of the `contents` array; `parts: [\x7b text \x7d]` flattened). -/
structure GTurn where
  role : String
  text : String
deriving DecidableEq

/-- Outcome of the completion-service call: a non-success HTTP status, or a
parsed body whose candidate text field may be present or missing. -/
inductive GeminiOutcome where
  | httpError : GeminiOutcome
  | success : Option String → GeminiOutcome

/-- The parsed JSON request body (`ChatRequest`). `isBoost` absent is
modelled as `false`, matching JavaScript truthiness of `undefined`. -/
structure TurnInput where
  message : String
  conversationId : Option String
  stylePackId : Option String
  isBoost : Bool

/-- External state a single turn observes: the conversation's message rows
in `created_at` ascending order, the style-pack lookup result, the
completion-service outcome, the caller's profile row (if any), the current
date, and the id the database would assign to a newly created conversation. -/
structure TurnEnv where
  history : List ChatMsg
  stylePackPrompt : Option String
  gemini : GeminiOutcome
  profile : Option Profile
  today : Int
  newConvId : String

/-- The JSON success response (fields the claims mention). -/
structure TurnResult where
  response : String
  conversationId : String
  pointsAwarded : Bool
deriving DecidableEq

/-- Database writes performed by one turn, plus the prompt sent upstream. -/
structure Effects where
  conversations : List (String × String)
  promptSent : List GTurn
  messageRows : List ChatMsg
  profileAfter : Option Profile
  rewards : List RewardEntry
deriving DecidableEq

/-! ## Reward accrual (source lines 244-289) -/

/-- Streak branches of the reward task, before any boost deduction
(source lines 247-258): returns `(pointsToAdd, newStreak)`.
`pointsToAdd` starts at 1; if `last_activity_date` is not today then
either it is yesterday (`streak += 1`, `pointsToAdd += 5`) or the streak
resets to 1. -/
def streakUpdate (today : Int) (p : Profile) : Int × Int :=
  if p.last_activity_date ≠ some today then
    if p.last_activity_date = some (today - 1) then
      (1 + 5, p.current_streak + 1)
    else
      (1, 1)
  else
    (1, p.current_streak)

/-- Full points computation including the boost deduction (source lines
260-263): if `isBoost` and `total_points >= 10`, `pointsToAdd -= 10`. -/
def computeAccrual (today : Int) (isBoost : Bool) (p : Profile) : Int × Int :=
  if isBoost ∧ 10 ≤ p.total_points then
    ((streakUpdate today p).1 - 10, (streakUpdate today p).2)
  else
    streakUpdate today p

/-- The profile `update` of the reward task (source lines 265-273). -/
def updatedProfile (today : Int) (isBoost : Bool) (p : Profile) : Profile :=
  { total_points := p.total_points + (computeAccrual today isBoost p).1,
    current_streak := (computeAccrual today isBoost p).2,
    last_activity_date := some today }

/-- The `rewards` insert of the reward task (source lines 275-289): one row
when `pointsToAdd !== 0`, none otherwise. -/
def ledgerEntries (today : Int) (isBoost : Bool) (p : Profile) : List RewardEntry :=
  if (computeAccrual today isBoost p).1 ≠ 0 then
    [{ type :=
         if 1 < (computeAccrual today isBoost p).1 then "streak"
         else if 0 < (computeAccrual today isBoost p).1 then "message"
         else "boost",
       points := (computeAccrual today isBoost p).1,
       description :=
         if 1 < (computeAccrual today isBoost p).1 then
           s!"Daily streak: {(computeAccrual today isBoost p).2} days"
         else if 0 < (computeAccrual today isBoost p).1 then "Message sent"
         else "Boost used" }]
  else []

/-- The whole background reward task (source lines 237-290): load the
profile; if absent do nothing, else update it and possibly append a ledger
row. Returns the profile row afterwards and the appended ledger rows. -/
def rewardAccrual (today : Int) (isBoost : Bool) (prof : Option Profile) :
    Option Profile × List RewardEntry :=
  match prof with
  | none => (none, [])
  | some p => (some (updatedProfile today isBoost p), ledgerEntries today isBoost p)

/-- Profile states after each call of a sequence of accrual calls
`(date, isBoost)`, starting from an existing profile. -/
def accrualTrace (p : Profile) : List (Int × Bool) → List Profile
  | [] => []
  | c :: rest =>
    let p2 := updatedProfile c.1 c.2 p
    p2 :: accrualTrace p2 rest

/-- The `last_activity_date` values stored after each call of a sequence of
accrual calls. -/
def lastDates (p : Profile) (calls : List (Int × Bool)) : List Int :=
  (accrualTrace p calls).filterMap (fun q => q.last_activity_date)

/-! ## Content screen (source line 200) -/

/-- Lower-cased character list of a string (`message.toLowerCase()`). -/
def lowerChars (s : String) : List Char :=
  s.data.map Char.toLower

/-- JavaScript regex word character `\w = [A-Za-z0-9_]`. -/
def isWordChar (c : Char) : Bool :=
  c.isAlpha || c.isDigit || c == '_'

/-- Whether `w` is a prefix of `cs` as character lists. -/
def startsWithList : List Char → List Char → Bool
  | [], _ => true
  | _ :: _, [] => false
  | a :: as, b :: bs => a == b && startsWithList as bs

/-- Word boundary after a match of `w` at the front of `cs`: the character
following the match, if any, is not a word character. -/
def boundaryAfter (w : List Char) (cs : List Char) : Bool :=
  match cs.drop w.length with
  | [] => true
  | d :: _ => !isWordChar d

/-- Whether `\bw\b` matches somewhere in the remaining characters, given
whether the character just before them is a word character. -/
def wordMatchFrom (w : List Char) (prevIsWord : Bool) : List Char → Bool
  | [] => false
  | c :: rest =>
    (!prevIsWord && startsWithList w (c :: rest) && boundaryAfter w (c :: rest))
    || wordMatchFrom w (isWordChar c) rest

/-- The banned-word set of the content screen. -/
def bannedWords : List String :=
  ["violence", "hate", "illegal", "harmful"]

/-- The content screen (source line 200):
`/\b(violence|hate|illegal|harmful)\b/i.test(message.toLowerCase())`. -/
def isHarmful (message : String) : Bool :=
  bannedWords.any (fun w => wordMatchFrom w.data false (lowerChars message))

/-- Whether `w` occurs as a contiguous sublist of `cs`. -/
def containsList (w : List Char) : List Char → Bool
  | [] => startsWithList w []
  | c :: rest => startsWithList w (c :: rest) || containsList w rest

/-- Modelled from the spec: the claimed content screen — case-insensitive
substring containment of a banned word in the message — stated for
comparison with the implemented `isHarmful`. -/
def specSubstringScreen (message : String) : Bool :=
  bannedWords.any (fun w => containsList w.data (lowerChars message))

/-! ## Turn handler (source lines 70-309) -/

/-- Conversation title on creation (source line 82):
`message.slice(0, 50) + (message.length > 50 ? '...' : '')`. -/
def conversationTitle (message : String) : String :=
  String.mk (message.data.take 50) ++ (if message.length > 50 then "..." else "")

/-- History query (source lines 96-101): `order('created_at', ascending)`
then `limit(10)` over the conversation's rows, i.e. the first 10 rows of
the ascending list. -/
def loadHistory (conv : List ChatMsg) : List ChatMsg :=
  conv.take 10

/-- Modelled from the spec: the claimed context selection — up to the most
recent 10 messages of the conversation, ordered oldest-first — stated for
comparison with the implemented `loadHistory`. -/
def specLoadHistory (conv : List ChatMsg) : List ChatMsg :=
  conv.drop (conv.length - 10)

/-- Default assistant persona (source line 109). -/
def defaultSystemPrompt : String :=
  "You are a helpful AI assistant."

/-- Fixed acknowledgment turn text (source line 125). -/
def ackText : String :=
  "I understand. I will respond according to this personality and style."

/-- Style-pack resolution (source lines 109-120): an unknown or missing
style pack falls back to the default persona. -/
def resolveSystemPrompt (stylePackId : Option String) (lookup : Option String) : String :=
  match stylePackId with
  | none => defaultSystemPrompt
  | some _ =>
    match lookup with
    | some sp => sp
    | none => defaultSystemPrompt

/-- Prompt construction (source lines 122-138): system framing turn, fixed
acknowledgment turn, history turns (`user` stays `user`, anything else
becomes `model`), then the new user message. -/
def buildMessages (systemPrompt : String) (history : List ChatMsg) (message : String) :
    List GTurn :=
  [⟨"user", systemPrompt⟩, ⟨"model", ackText⟩]
    ++ history.map (fun m => if m.role == "user" then (⟨"user", m.content⟩ : GTurn)
                             else ⟨"model", m.content⟩)
    ++ [⟨"user", message⟩]

/-- Response validation (source lines 180-195): a non-success status or a
body without candidate text throws; otherwise the text is extracted. -/
def geminiText : GeminiOutcome → Except String String
  | GeminiOutcome.httpError => Except.error "Gemini API error"
  | GeminiOutcome.success none => Except.error "Invalid response from Gemini API"
  | GeminiOutcome.success (some t) => Except.ok t

/-- The request handler for one turn (source lines 70-309): resolve or
create the conversation, load context, build the prompt, call the
completion service (its failure throws before any message insert), persist
the two message rows, run the content screen, and run reward accrual only
when the message is not flagged. Returns the HTTP-level outcome and the
database writes performed. -/
def handleTurn (env : TurnEnv) (input : TurnInput) : Except String TurnResult × Effects :=
  let convId := input.conversationId.getD env.newConvId
  let createdConvs : List (String × String) :=
    match input.conversationId with
    | some _ => []
    | none => [(env.newConvId, conversationTitle input.message)]
  let prompt := buildMessages (resolveSystemPrompt input.stylePackId env.stylePackPrompt)
    (loadHistory env.history) input.message
  match geminiText env.gemini with
  | Except.error e =>
    (Except.error e,
     { conversations := createdConvs, promptSent := prompt, messageRows := [],
       profileAfter := env.profile, rewards := [] })
  | Except.ok aiResponse =>
    let harmful := isHarmful input.message
    let accrual : Option Profile × List RewardEntry :=
      if harmful then (env.profile, [])
      else rewardAccrual env.today input.isBoost env.profile
    (Except.ok { response := aiResponse, conversationId := convId,
                 pointsAwarded := !harmful },
     { conversations := createdConvs, promptSent := prompt,
       messageRows := [⟨"user", input.message⟩, ⟨"assistant", aiResponse⟩],
       profileAfter := accrual.1, rewards := accrual.2 })

/-! ## Claim theorems -/

/-- C1: for every reward-accrual call with an existing profile, the streak
and bonus are computed by exactly these branches before any boost
deduction: if `last_activity_date` equals today, the streak is unchanged
and `pointsToAdd` stays at its base of 1; else if `last_activity_date`
equals yesterday (today minus one day), the streak is incremented by 1 and
`pointsToAdd` becomes 6; otherwise (gap of two or more days, or first-ever
activity with null `last_activity_date`), the streak is reset to 1 and
`pointsToAdd` stays 1. -/
theorem C1_streak_branches (today : Int) (p : Profile) :
    (p.last_activity_date = some today →
      streakUpdate today p = (1, p.current_streak)) ∧
    (p.last_activity_date ≠ some today → p.last_activity_date = some (today - 1) →
      streakUpdate today p = (6, p.current_streak + 1)) ∧
    (p.last_activity_date ≠ some today → p.last_activity_date ≠ some (today - 1) →
      streakUpdate today p = (1, 1)) := by
  refine ⟨fun h => ?_, fun h h2 => ?_, fun h h2 => ?_⟩
  · simp [streakUpdate, h]
  · simp [streakUpdate, h, h2]
  · simp [streakUpdate, h, h2]

/-- C1 witness: a profile last active yesterday (day 4, today day 5) with
streak 3 takes the middle branch: `pointsToAdd` 6, streak 4. -/
theorem C1_streak_branches_witness :
    (some (4 : Int) ≠ some (5 : Int)) ∧ (some (4 : Int) = some (5 - 1 : Int)) ∧
    streakUpdate 5 ⟨0, 3, some 4⟩ = (6, 3 + 1) :=
  ⟨by decide, by decide,
    (C1_streak_branches 5 ⟨0, 3, some 4⟩).2.1 (by decide) (by decide)⟩

/-- C2: if `isBoost` is true and the stored `total_points` before the
update is at least 10, then 10 is subtracted from the `pointsToAdd`
computed by the streak branches; if `isBoost` is true and `total_points`
is below 10, `pointsToAdd` is unchanged. -/
theorem C2_boost_deduction (today : Int) (b : Bool) (p : Profile) :
    (b = true → 10 ≤ p.total_points →
      computeAccrual today b p =
        ((streakUpdate today p).1 - 10, (streakUpdate today p).2)) ∧
    (b = true → p.total_points < 10 →
      computeAccrual today b p = streakUpdate today p) := by
  constructor
  · intro hb h
    simp [computeAccrual, hb, h]
  · intro hb h
    simp [computeAccrual, hb, Int.not_le.mpr h]

/-- C2 witness: same-day activity (today day 5, last activity day 5) with
boost and 12 stored points nets `pointsToAdd = 1 - 10 = -9`. -/
theorem C2_boost_deduction_witness :
    ((10 : Int) ≤ 12) ∧
    computeAccrual 5 true ⟨12, 3, some 5⟩ =
      ((streakUpdate 5 ⟨12, 3, some 5⟩).1 - 10, (streakUpdate 5 ⟨12, 3, some 5⟩).2) ∧
    computeAccrual 5 true ⟨12, 3, some 5⟩ = (-9, 3) :=
  ⟨by decide, (C2_boost_deduction 5 true ⟨12, 3, some 5⟩).1 rfl (by decide), by decide⟩

/-- C8: when the caller's profile cannot be loaded, the accrual is a no-op:
no profile row is updated, no ledger entry is appended, and no error is
raised (the task returns normally with the absent profile unchanged). -/
theorem C8_missing_profile_noop (today : Int) (b : Bool) :
    rewardAccrual today b none = (none, []) := by
  rfl

/-- C10: `pointsToAdd` can only take the values 1, 6, -9 or -4 and is never
0, so the zero-delta branch of the ledger write is unreachable and every
accrual that reaches the update step with an existing profile appends
exactly one ledger entry. -/
theorem C10_points_never_zero (today : Int) (b : Bool) (p : Profile) :
    ((computeAccrual today b p).1 = 1 ∨ (computeAccrual today b p).1 = 6 ∨
     (computeAccrual today b p).1 = -9 ∨ (computeAccrual today b p).1 = -4) ∧
    (computeAccrual today b p).1 ≠ 0 ∧
    (ledgerEntries today b p).length = 1 := by
  have hv : (computeAccrual today b p).1 = 1 ∨ (computeAccrual today b p).1 = 6 ∨
      (computeAccrual today b p).1 = -9 ∨ (computeAccrual today b p).1 = -4 := by
    unfold computeAccrual streakUpdate
    split <;> split <;> (try split) <;> norm_num
  have hne : (computeAccrual today b p).1 ≠ 0 := by
    rcases hv with h | h | h | h <;> rw [h] <;> decide
  refine ⟨hv, hne, ?_⟩
  simp [ledgerEntries, hne]

/-- C3: with an existing profile, the profile is updated to
`total_points + pointsToAdd`, the newly computed streak, and
`last_activity_date = today`; if `pointsToAdd` is nonzero exactly one
ledger entry is appended whose `points` equals `pointsToAdd`, categorized
`streak` when `pointsToAdd > 1`, `message` when `0 < pointsToAdd ≤ 1`, and
`boost` otherwise; if `pointsToAdd` is zero no entry is appended. -/
theorem C3_persist_and_ledger (today : Int) (b : Bool) (p : Profile)
    (pts st : Int) (h : computeAccrual today b p = (pts, st)) :
    updatedProfile today b p = ⟨p.total_points + pts, st, some today⟩ ∧
    (pts ≠ 0 → ∃ e : RewardEntry, ledgerEntries today b p = [e] ∧
      e.points = pts ∧
      (1 < pts → e.type = "streak") ∧
      (0 < pts ∧ pts ≤ 1 → e.type = "message") ∧
      (pts ≤ 0 → e.type = "boost")) ∧
    (pts = 0 → ledgerEntries today b p = []) := by
  refine ⟨?_, fun hne => ?_, fun hz => ?_⟩
  · simp [updatedProfile, h]
  · refine ⟨{ type := if 1 < pts then "streak" else if 0 < pts then "message" else "boost",
              points := pts,
              description := if 1 < pts then s!"Daily streak: {st} days"
                             else if 0 < pts then "Message sent" else "Boost used" },
            ?_, rfl, ?_, ?_, ?_⟩
    · simp [ledgerEntries, h, hne]
    · intro h1
      simp [h1]
    · rintro ⟨h0, h1⟩
      have hn : ¬ (1 : Int) < pts := by omega
      simp [hn, h0]
    · intro h0
      have h1 : ¬ (1 : Int) < pts := by omega
      have h2 : ¬ (0 : Int) < pts := by omega
      simp [h1, h2]
  · simp [ledgerEntries, h, hz]

/-- C3 witness: consecutive-day accrual (today 5, last activity 4) with no
boost gives `pointsToAdd = 6`, so the profile gains 6 points, moves to
streak 4 and date 5, and one `streak` ledger entry is appended. -/
theorem C3_persist_and_ledger_witness :
    computeAccrual 5 false ⟨2, 3, some 4⟩ = (6, 4) ∧ (6 : Int) ≠ 0 ∧
    (updatedProfile 5 false ⟨2, 3, some 4⟩ = ⟨2 + 6, 4, some 5⟩ ∧
     ((6 : Int) ≠ 0 → ∃ e : RewardEntry, ledgerEntries 5 false ⟨2, 3, some 4⟩ = [e] ∧
       e.points = 6 ∧
       ((1 : Int) < 6 → e.type = "streak") ∧
       ((0 : Int) < 6 ∧ (6 : Int) ≤ 1 → e.type = "message") ∧
       ((6 : Int) ≤ 0 → e.type = "boost")) ∧
     ((6 : Int) = 0 → ledgerEntries 5 false ⟨2, 3, some 4⟩ = [])) :=
  ⟨by decide, by decide, C3_persist_and_ledger 5 false ⟨2, 3, some 4⟩ 6 4 (by decide)⟩

/-- Each accrual call stores its own date as `last_activity_date`: the
stored dates along a run are exactly the call dates. -/
theorem lastDates_eq (p : Profile) (calls : List (Int × Bool)) :
    lastDates p calls = calls.map Prod.fst := by
  induction calls generalizing p with
  | nil => rfl
  | cons c rest ih =>
    simp [lastDates, accrualTrace, updatedProfile, List.filterMap_cons]
    exact ih _

/-- C9: across a sequence of accrual calls on an existing profile executed
with non-decreasing reference dates, the stored `last_activity_date` is
monotonically non-decreasing: each call stores its own date (first
conjunct), and the stored dates form a non-decreasing chain (second
conjunct). -/
theorem C9_last_activity_monotone (p : Profile) (calls : List (Int × Bool))
    (hs : List.Chain' (· ≤ ·) (calls.map Prod.fst)) :
    lastDates p calls = calls.map Prod.fst ∧
    List.Chain' (· ≤ ·) (lastDates p calls) := by
  refine ⟨lastDates_eq p calls, ?_⟩
  rw [lastDates_eq]
  exact hs

/-- C9 witness: two calls on days 1 then 2 store dates 1 then 2, a
non-decreasing chain. -/
theorem C9_last_activity_monotone_witness :
    List.Chain' (· ≤ ·) (([((1 : Int), false), (2, true)]).map Prod.fst) ∧
    (lastDates ⟨0, 0, none⟩ [((1 : Int), false), (2, true)] =
        ([((1 : Int), false), (2, true)]).map Prod.fst ∧
     List.Chain' (· ≤ ·) (lastDates ⟨0, 0, none⟩ [((1 : Int), false), (2, true)])) :=
  ⟨by simp, C9_last_activity_monotone ⟨0, 0, none⟩ _ (by simp)⟩

/-- The conversation title is the message itself when it has at most 50
characters, and its first 50 characters followed by an ellipsis otherwise. -/
theorem conversationTitle_eq (m : String) :
    conversationTitle m =
      if m.length ≤ 50 then m else String.mk (m.data.take 50) ++ "..." := by
  obtain ⟨d⟩ := m
  show String.mk (d.take 50) ++ (if (String.mk d).length > 50 then "..." else "") =
    if (String.mk d).length ≤ 50 then String.mk d else String.mk (d.take 50) ++ "..."
  have hlen : (String.mk d).length = d.length := rfl
  rw [hlen]
  by_cases h : d.length ≤ 50
  · rw [if_pos h, if_neg (by omega)]
    rw [List.take_of_length_le h]
    show String.mk (d ++ []) = String.mk d
    rw [List.append_nil]
  · rw [if_neg h, if_pos (by omega)]

/-- Conversation turn environment used to exercise the content screen. -/
def envC4 : TurnEnv :=
  { history := [], stylePackPrompt := none,
    gemini := GeminiOutcome.success (some "ok"), profile := some ⟨0, 0, none⟩,
    today := 0, newConvId := "c0" }

/-- Turn input whose message contains a banned word only as a substring. -/
def inputC4 : TurnInput :=
  { message := "chateau", conversationId := none, stylePackId := none, isBoost := false }

/-- Turn input whose message contains a banned word as a whole word. -/
def inputC4h : TurnInput :=
  { message := "this is hate", conversationId := none, stylePackId := none, isBoost := false }

/-- C4 counterexample: the message "chateau" contains the banned word
"hate" as a case-insensitive substring, yet the implemented screen does not
flag it (the regex requires word boundaries), so the turn reports
`pointsAwarded = true` and a ledger entry is appended — refuting the claim
that any substring match suppresses reward accrual. -/
theorem C4_substring_not_suppressed :
    specSubstringScreen "chateau" = true ∧
    isHarmful "chateau" = false ∧
    (handleTurn envC4 inputC4).1 = Except.ok ⟨"ok", "c0", true⟩ ∧
    (handleTurn envC4 inputC4).2.rewards = [⟨"message", 1, "Message sent"⟩] := by
  refine ⟨rfl, rfl, rfl, rfl⟩

/-- C4 (amended): for every turn request whose user message contains a
banned word matched as a whole word (delimited by word boundaries),
case-insensitively, reward accrual is suppressed for that turn only:
`pointsAwarded = false`, no ledger entry and no profile update, while both
the user and assistant rows are still persisted; a message with no such
whole-word match yields `pointsAwarded = true`. -/
theorem C4_whole_word_screen (env : TurnEnv) (input : TurnInput) (r : TurnResult)
    (hok : (handleTurn env input).1 = Except.ok r) :
    (isHarmful input.message = true →
      r.pointsAwarded = false ∧
      (handleTurn env input).2.rewards = [] ∧
      (handleTurn env input).2.profileAfter = env.profile ∧
      (handleTurn env input).2.messageRows =
        [⟨"user", input.message⟩, ⟨"assistant", r.response⟩]) ∧
    (isHarmful input.message = false → r.pointsAwarded = true) := by
  cases hg : env.gemini with
  | httpError => simp [handleTurn, geminiText, hg] at hok
  | success o =>
    cases o with
    | none => simp [handleTurn, geminiText, hg] at hok
    | some t =>
      simp only [handleTurn, geminiText] at hok
      rw [hg] at hok
      simp only [Except.ok.injEq] at hok
      subst hok
      constructor
      · intro hh
        refine ⟨by simp [hh], ?_, ?_, ?_⟩ <;>
          simp [handleTurn, geminiText, hg, hh]
      · intro hh
        simp [hh]

/-- C4 amended-claim witness: "this is hate" contains "hate" as a whole
word, so the turn succeeds with `pointsAwarded = false`, appends no ledger
entry, leaves the profile untouched, and still persists both rows. -/
theorem C4_whole_word_screen_witness :
    (handleTurn envC4 inputC4h).1 = Except.ok ⟨"ok", "c0", false⟩ ∧
    isHarmful inputC4h.message = true ∧
    ((⟨"ok", "c0", false⟩ : TurnResult).pointsAwarded = false ∧
     (handleTurn envC4 inputC4h).2.rewards = [] ∧
     (handleTurn envC4 inputC4h).2.profileAfter = envC4.profile ∧
     (handleTurn envC4 inputC4h).2.messageRows =
       [⟨"user", inputC4h.message⟩, ⟨"assistant", (⟨"ok", "c0", false⟩ : TurnResult).response⟩]) :=
  ⟨rfl, rfl,
    (C4_whole_word_screen envC4 inputC4h ⟨"ok", "c0", false⟩ rfl).1 rfl⟩

/-- An eleven-message conversation in `created_at` ascending order; the
newest row is `m10`. -/
def convEleven : List ChatMsg :=
  [⟨"user", "m0"⟩, ⟨"assistant", "m1"⟩, ⟨"user", "m2"⟩, ⟨"assistant", "m3"⟩,
   ⟨"user", "m4"⟩, ⟨"assistant", "m5"⟩, ⟨"user", "m6"⟩, ⟨"assistant", "m7"⟩,
   ⟨"user", "m8"⟩, ⟨"assistant", "m9"⟩, ⟨"user", "m10"⟩]

/-- Turn environment over the eleven-message conversation. -/
def envC5 : TurnEnv :=
  { history := convEleven, stylePackPrompt := none,
    gemini := GeminiOutcome.success (some "reply"), profile := none,
    today := 0, newConvId := "c5" }

/-- Turn input continuing the eleven-message conversation. -/
def inputC5 : TurnInput :=
  { message := "newest question", conversationId := some "conv5",
    stylePackId := none, isBoost := false }

/-- C5: evaluated on an eleven-message conversation, the implemented
history query (`created_at` ascending, limit 10) returns the oldest ten
rows and omits the newest row `m10`, while the claimed selection (the most
recent ten, oldest-first) would contain `m10`; the prompt order itself —
system framing turn, acknowledgment turn, history turns, new user
message — is as claimed. -/
theorem C5_context_is_oldest_ten :
    specLoadHistory convEleven = convEleven.drop 1 ∧
    loadHistory convEleven = convEleven.take 10 ∧
    loadHistory convEleven ≠ specLoadHistory convEleven ∧
    (⟨"user", "m10"⟩ : ChatMsg) ∈ specLoadHistory convEleven ∧
    (⟨"user", "m10"⟩ : ChatMsg) ∉ loadHistory convEleven ∧
    (handleTurn envC5 inputC5).2.promptSent =
      [⟨"user", defaultSystemPrompt⟩, ⟨"model", ackText⟩,
       ⟨"user", "m0"⟩, ⟨"model", "m1"⟩, ⟨"user", "m2"⟩, ⟨"model", "m3"⟩,
       ⟨"user", "m4"⟩, ⟨"model", "m5"⟩, ⟨"user", "m6"⟩, ⟨"model", "m7"⟩,
       ⟨"user", "m8"⟩, ⟨"model", "m9"⟩, ⟨"user", "newest question"⟩] := by
  refine ⟨rfl, rfl, by decide, by decide, by decide, rfl⟩

/-- C6: with `conversationId` absent, the turn creates exactly one
conversation owned by the caller whose title is the first 50 characters of
the message with an ellipsis appended exactly when the message exceeds 50
characters, and returns the new conversation's identifier. -/
theorem C6_new_conversation (env : TurnEnv) (input : TurnInput) (r : TurnResult)
    (hnone : input.conversationId = none)
    (hok : (handleTurn env input).1 = Except.ok r) :
    (handleTurn env input).2.conversations =
      [(env.newConvId, conversationTitle input.message)] ∧
    r.conversationId = env.newConvId ∧
    conversationTitle input.message =
      (if input.message.length ≤ 50 then input.message
       else String.mk (input.message.data.take 50) ++ "...") := by
  refine ⟨?_, ?_, conversationTitle_eq _⟩
  · cases hg : env.gemini with
    | httpError => simp [handleTurn, geminiText, hg, hnone]
    | success o =>
      cases o <;> simp [handleTurn, geminiText, hg, hnone]
  · cases hg : env.gemini with
    | httpError => simp [handleTurn, geminiText, hg] at hok
    | success o =>
      cases o with
      | none => simp [handleTurn, geminiText, hg] at hok
      | some t =>
        simp only [handleTurn, geminiText] at hok
        rw [hg] at hok
        simp only [Except.ok.injEq] at hok
        subst hok
        simp [hnone]

/-- Turn environment for the conversation-creation witness. -/
def envC6 : TurnEnv :=
  { history := [], stylePackPrompt := none,
    gemini := GeminiOutcome.success (some "resp"), profile := none,
    today := 3, newConvId := "newconv" }

/-- Turn input with no conversation id. -/
def inputC6 : TurnInput :=
  { message := "hello world", conversationId := none,
    stylePackId := none, isBoost := false }

/-- C6 witness: an 11-character message creates a conversation titled with
the whole message and no ellipsis, and the new id is returned. -/
theorem C6_new_conversation_witness :
    inputC6.conversationId = none ∧
    (handleTurn envC6 inputC6).1 = Except.ok ⟨"resp", "newconv", true⟩ ∧
    ((handleTurn envC6 inputC6).2.conversations =
       [(envC6.newConvId, conversationTitle inputC6.message)] ∧
     (⟨"resp", "newconv", true⟩ : TurnResult).conversationId = envC6.newConvId ∧
     conversationTitle inputC6.message =
       (if inputC6.message.length ≤ 50 then inputC6.message
        else String.mk (inputC6.message.data.take 50) ++ "...")) :=
  ⟨rfl, rfl, C6_new_conversation envC6 inputC6 ⟨"resp", "newconv", true⟩ rfl rfl⟩

/-- C7: when the completion service returns a non-success status or a
response missing the expected text field, the request fails with the
corresponding error propagated to the caller, and zero message rows are
written for the turn — no profile update and no ledger entry either. -/
theorem C7_upstream_failure (env : TurnEnv) (input : TurnInput)
    (hfail : env.gemini = GeminiOutcome.httpError ∨
      env.gemini = GeminiOutcome.success none) :
    (∃ e, (handleTurn env input).1 = Except.error e) ∧
    (handleTurn env input).2.messageRows = [] ∧
    (handleTurn env input).2.profileAfter = env.profile ∧
    (handleTurn env input).2.rewards = [] := by
  rcases hfail with h | h <;> simp [handleTurn, geminiText, h]

/-- Turn environment whose completion call fails with a non-success
status. -/
def envC7 : TurnEnv :=
  { history := [], stylePackPrompt := none, gemini := GeminiOutcome.httpError,
    profile := some ⟨0, 0, none⟩, today := 0, newConvId := "c7" }

/-- Turn input for the upstream-failure witness. -/
def inputC7 : TurnInput :=
  { message := "hello", conversationId := some "conv7",
    stylePackId := none, isBoost := false }

/-- C7 witness: a failing completion call yields an error outcome with no
message rows, no profile change and no ledger entry. -/
theorem C7_upstream_failure_witness :
    (envC7.gemini = GeminiOutcome.httpError ∨
      envC7.gemini = GeminiOutcome.success none) ∧
    ((∃ e, (handleTurn envC7 inputC7).1 = Except.error e) ∧
     (handleTurn envC7 inputC7).2.messageRows = [] ∧
     (handleTurn envC7 inputC7).2.profileAfter = envC7.profile ∧
     (handleTurn envC7 inputC7).2.rewards = []) :=
  ⟨Or.inl rfl, C7_upstream_failure envC7 inputC7 (Or.inl rfl)⟩

end Chatearn
